import Mathlib

/-!
Shallow embedding of `src/commands/apps.js` (puter-cli).

Each exported command is modelled as a pure function from an explicit
environment (the remote API responses, the current user/directory, and the
locally generated random values) to the sequence of API calls it issues,
the list of console messages it prints, and its return value.

Console output is modelled as the list of printed message strings
(without ANSI colouring); purely decorative progress lines that no claim
depends on are elided, which is noted at each definition.

JavaScript semantics that matter here and are modelled faithfully:
  * `deleteSubdomain`'s `for` loop has no braces, so its body is exactly
    the `try`/`catch` statement and the `return true` sits after the loop;
  * `deleteSite` and `deploySite` pass a plain string to `deleteSubdomain`
    (whose parameter is documented as an array); `for...of` over a string
    iterates its single-character substrings, and `string.length` is the
    character count, so the `args.length < 1` guard passes for any
    non-empty string;
  * truthiness: an empty string is falsy (`--subdomain=` behaves as if the
    flag were absent; a directory response with an empty `uid` counts as a
    failure).
-/

namespace PuterCli

/-- One HTTP request issued by the module, identified by endpoint/method and
the arguments that the claims talk about. -/
inductive ApiCall where
  | subdomainSelect
  | subdomainDelete (id : String)
  | subdomainCreate (subdomain : String) (rootDir : String)
  | siteDelete (uuid : String)
  | appCreate (name : String)
  | mkdir (parent : String) (path : String)
  | appRead (name : String)
  | appDelete (name : String)
  | appUpdate (name : String) (indexUrl : String) (title : String)
  deriving DecidableEq, Repr

/-- Outcome of one `puter-subdomains`/`delete` call, as seen by the client:
`ok` is `data.success` true; `notFound` is `success:false` with error code
`entity_not_found`; `failed` is any other `success:false` (carrying
`data.error?.message`); `threw` is a transport exception caught by the
`catch` inside the loop. -/
inductive DeleteOutcome where
  | ok
  | notFound
  | failed (msg : String)
  | threw (msg : String)
  deriving DecidableEq, Repr

/-- Body of `deleteSubdomain`'s `for (const subdomainId of subdomains)` loop.
Returns (calls issued, messages printed, return value): on `success:false`
the function returns `false` from inside the loop; on `ok` or on a caught
exception the loop continues; after the loop `return true` executes. -/
def deleteLoop (oracle : String → DeleteOutcome) : List String → List ApiCall × List String × Bool
  | [] => ([], [], true)
  | sid :: rest =>
    match oracle sid with
    | .ok =>
      let r := deleteLoop oracle rest
      (.subdomainDelete sid :: r.1, "Subdomain deleted successfully" :: r.2.1, r.2.2)
    | .notFound =>
      ([.subdomainDelete sid], ["Subdomain ID: \"" ++ sid ++ "\" not found"], false)
    | .failed m =>
      ([.subdomainDelete sid], ["Failed to delete subdomain: " ++ m], false)
    | .threw m =>
      let r := deleteLoop oracle rest
      (.subdomainDelete sid :: r.1, ("Error deleting subdomain: " ++ m) :: r.2.1, r.2.2)

/-- `deleteSubdomain(args)`: guard on `args.length < 1`, then the loop. -/
def deleteSubdomain (oracle : String → DeleteOutcome) (args : List String) :
    List ApiCall × List String × Bool :=
  if args.length < 1 then
    ([], ["Usage: domain:delete <subdomain_id>"], false)
  else
    deleteLoop oracle args

/-- JavaScript `for...of` over a string yields its characters as
one-character strings; this is what `deleteSubdomain` receives when a caller
passes a plain string instead of an array. -/
def strChars (s : String) : List String :=
  s.data.map (fun c => String.mk [c])

/-- JavaScript `s.split('-')[0]`: the prefix of `s` before its first `-`
(the whole string when there is none; empty when `s` starts with `-`). -/
def firstSegment (s : String) : String :=
  String.mk (s.data.takeWhile (fun c => c != '-'))

/-- Environment for `deleteSite`: per-UUID response of the `delete-site`
endpoint (`none` means `!response.ok`, a thrown error caught by the loop's
`catch`; `some b` means an ok response whose JSON body is the empty object
iff `b`), plus the subdomain-delete response oracle. -/
structure SiteEnv where
  siteResp : String → Option Bool
  subOracle : String → DeleteOutcome

/-- Body of `deleteSite`'s `for (const uuid of args)` loop (again a brace-less
loop whose body is the `try`/`catch`; nothing follows the loop). The HTTP
status number in the thrown message is elided. Note the call
`deleteSubdomain(uuid)` hands a plain string to `deleteSubdomain`, which
therefore iterates the characters of the UUID. -/
def deleteSiteLoop (env : SiteEnv) : List String → List ApiCall × List String
  | [] => ([], [])
  | uuid :: rest =>
    match env.siteResp uuid with
    | none =>
      let r := deleteSiteLoop env rest
      (.siteDelete uuid :: r.1, "Error deleting site: Failed to delete site" :: r.2)
    | some isEmptyBody =>
      let d := deleteSubdomain env.subOracle (strChars uuid)
      let okMsgs :=
        if d.2.2 && isEmptyBody then
          ["Site ID: \"" ++ uuid ++ "\" should be deleted."]
        else []
      let r := deleteSiteLoop env rest
      (.siteDelete uuid :: d.1 ++ r.1,
       d.2.1 ++ okMsgs ++ (("Site ID: \"" ++ uuid ++ "\" may already be deleted!") :: r.2))

/-- `deleteSite(args)`: guard on `args.length < 1`, then the loop. -/
def deleteSite (env : SiteEnv) (args : List String) : List ApiCall × List String :=
  if args.length < 1 then
    ([], ["Usage: site:delete <siteUUID>"])
  else
    deleteSiteLoop env args

/-- The fields of a successful `puter-apps`/`create` response that
`createApp` reads: `result.uid`, `result.name` (canonical, after server-side
dedupe), `result.owner.username`. -/
structure AppRec where
  uid : String
  name : String
  ownerUsername : String
  deriving DecidableEq, Repr

/-- The fields of a `/mkdir` response that `createApp` reads (`uid`, `name`);
an absent `uid` is modelled as the empty string being falsy. -/
structure MkdirResult where
  uid : String
  name : String
  deriving DecidableEq, Repr

/-- Environment for `createApp`: the four remote responses in step order and
the locally generated `crypto.randomUUID()` value. `createResp = none` is a
missing or `success:false` create response; similarly `mkdirResp = none` is
a missing directory response. -/
structure CreateAppEnv where
  createResp : Option AppRec
  uuid : String
  mkdirResp : Option MkdirResult
  subdomainCreateOk : Bool
  updateOk : Bool

/-- `createApp(name, ...)`: four sequential steps, each short-circuiting on
failure with an error message. Output is modelled as the error messages plus
the final deployment lines; the intermediate green/dim progress lines are
elided. -/
def createApp (env : CreateAppEnv) (name : String) : List ApiCall × List String :=
  let c1 := ApiCall.appCreate name
  match env.createResp with
  | none => ([c1], ["Failed to create app \"" ++ name ++ "\""])
  | some app =>
    let parent := "/" ++ app.ownerUsername ++ "/AppData/" ++ app.uid
    let c2 := ApiCall.mkdir parent ("app-" ++ env.uuid)
    match env.mkdirResp with
    | none => ([c1, c2], ["Failed to create directory for app \"" ++ name ++ "\""])
    | some d =>
      if d.uid = "" then
        ([c1, c2], ["Failed to create directory for app \"" ++ name ++ "\""])
      else
        let subdomainName := name ++ "-" ++ firstSegment env.uuid
        let c3 := ApiCall.subdomainCreate subdomainName (parent ++ "/" ++ d.name)
        if env.subdomainCreateOk = false then
          ([c1, c2, c3], ["Failed to create subdomain: \"" ++ subdomainName ++ "\""])
        else
          let c4 := ApiCall.appUpdate app.name ("https://" ++ app.name ++ ".puter.site") name
          if env.updateOk = false then
            ([c1, c2, c3, c4], ["Failed to update app \"" ++ name ++ "\" with new subdomain"])
          else
            ([c1, c2, c3, c4],
             ["App deployed successfully at:",
              "https://" ++ subdomainName ++ ".puter.site"])

/-- Environment for `deleteApp`: the shape of the read response
(`readData.success`, presence of `readData.result`) and the success flag of
the delete response. -/
structure DeleteAppEnv where
  readSuccess : Bool
  readHasResult : Bool
  deleteOk : Bool

/-- `deleteApp(name)`: read, then delete. Returns `some false` on the
not-found path; the later `return true`/`return false` statements are
commented out in the source, so every other path returns `undefined`
(modelled as `none`). The app-details display block is elided from the
output model. -/
def deleteApp (env : DeleteAppEnv) (name : String) :
    List ApiCall × List String × Option Bool :=
  let c1 := ApiCall.appRead name
  if !env.readSuccess || !env.readHasResult then
    ([c1], ["App \"" ++ name ++ "\" not found."], some false)
  else
    let c2 := ApiCall.appDelete name
    if env.deleteOk then
      ([c1, c2], ["App \"" ++ name ++ "\" deleted successfully!"], none)
    else
      ([c1, c2],
       ["Failed to delete app \"" ++ name ++
          "\".\nP.S. You may need to provide the \x27name\x27 not the \x27title\x27."],
       none)

/-- The fields of one element of a `puter-subdomains`/`select` result that
`deploySite` reads: `uid`, `subdomain`, `owner.username`, `root_dir?.path`
(`none` when `root_dir` is absent). -/
structure SubdomainRec where
  uid : String
  subdomain : String
  ownerUsername : String
  rootDirPath : Option String
  deriving DecidableEq, Repr

/-- Environment for `deploySite`: current directory and user, the external
`resolvePath` helper, the `select` response (`none` for any failed fetch,
which both `getSubdomains` and `deploySite` turn into a thrown error),
the subdomain-delete oracle, the value `generateAppName()` would return,
and the `hostDirectory` response (`none` for `!response.ok` or a missing
`result`; `some s` for a result whose `subdomain` field is `s`). -/
structure DeployEnv where
  currentDirectory : String
  currentUserName : String
  resolvePath : String → String → String
  selectResp : Option (List SubdomainRec)
  deleteOracle : String → DeleteOutcome
  generatedName : String
  hostResp : Option String

/-- `args.find(arg => arg.startsWith('--subdomain='))?.split('=')[1]`. -/
def subdomainOptionOf (args : List String) : Option String :=
  match args.find? (fun a => a.startsWith "--subdomain=") with
  | some a => (a.splitOn "=").get? 1
  | none => none

/-- Step 1 of `deploySite`: the provided `--subdomain=` value if truthy
(a missing flag or an empty value falls back to the app name). -/
def candidateSubdomain (args : List String) (appName : String) : String :=
  match subdomainOptionOf args with
  | some s => if s = "" then appName else s
  | none => appName

/-- `deploySite`'s remote-directory resolution: a falsy `args[1]` (absent or
empty) or one that starts with `--` keeps the current directory, anything
else is resolved against it. -/
def remoteDirOf (env : DeployEnv) (args : List String) : String :=
  match args.get? 1 with
  | none => env.currentDirectory
  | some a =>
    if a = "" then env.currentDirectory
    else if a.startsWith "--" then env.currentDirectory
    else env.resolvePath env.currentDirectory a

/-- `hostDirectory(subdomain, remoteDir)`: one `puter-subdomains`/`create`
call; the environment decides whether it throws or what `data.result` is. -/
def hostDirectory (env : DeployEnv) (subdomain remoteDir : String) :
    ApiCall × Option String :=
  (ApiCall.subdomainCreate subdomain remoteDir, env.hostResp)

/-- Step 3 of `deploySite` plus the surrounding `try`/`catch`: host the
directory under `sub` and report, appending to the calls/messages
accumulated so far. -/
def deployHostStep (env : DeployEnv) (appName sub remoteDir : String)
    (calls : List ApiCall) (outs : List String) : List ApiCall × List String :=
  let h := hostDirectory env sub remoteDir
  let hosting := "Hosting app \"" ++ appName ++ "\" under subdomain \"" ++ sub ++ "\"..."
  match h.2 with
  | none =>
    (calls ++ [h.1], outs ++ [hosting, "Failed to deploy app.", "Error: Failed to host directory."])
  | some echoed =>
    (calls ++ [h.1],
     outs ++ [hosting,
              "App \"" ++ appName ++ "\" deployed successfully!",
              "Website hosted at: https://" ++ echoed ++ ".puter.site"])

/-- `root_dir?.path` as rendered inside a template literal (`undefined` when
absent). -/
def optPath : Option String → String
  | some p => p
  | none => "undefined"

/-- `deploySite(args)`. Note the branch structure of the source: the
random-name generation sits in the `else` of `if (subdomainObj)`, i.e. it
runs exactly when the candidate subdomain is NOT in the fetched list, while
a candidate owned by a different user falls through to step 3 unchanged. -/
def deploySite (env : DeployEnv) (args : List String) : List ApiCall × List String :=
  match args with
  | [] => ([], ["Usage: deploy <name> [<remote_dir>] [--subdomain=<subdomain>]"])
  | appName :: rest =>
    let remoteDir := remoteDirOf env (appName :: rest)
    let sub := candidateSubdomain (appName :: rest) appName
    let outs0 := ["Deploying app \"" ++ appName ++ "\" from \"" ++ remoteDir ++ "\"..."]
    match env.selectResp with
    | none =>
      ([ApiCall.subdomainSelect],
       outs0 ++ ["Failed to deploy app.", "Error: Failed to fetch subdomains"])
    | some subdomains =>
      match subdomains.find? (fun sd => sd.subdomain == sub) with
      | some sdObj =>
        let outs1 := outs0 ++
          ["The subdomain \"" ++ sub ++ "\" is already in use and owned by: \"" ++
             sdObj.ownerUsername ++ "\""]
        if sdObj.ownerUsername = env.currentUserName then
          let outs2 := outs1 ++ ["It\x27s yours, and linked to: " ++ optPath sdObj.rootDirPath]
          if sdObj.rootDirPath = some remoteDir then
            ([ApiCall.subdomainSelect],
             outs2 ++ ["Which is already the selected directory, and deployed at:",
                       "https://" ++ sub ++ ".puter.site"])
          else
            let outs3 := outs2 ++
              ["However, It\x27s linked to different directory at: " ++ optPath sdObj.rootDirPath,
               "We\x27ll try to unlink this subdomain from that directory..."]
            let d := deleteSubdomain env.deleteOracle (strChars sdObj.uid)
            if d.2.2 then
              (ApiCall.subdomainSelect :: d.1,
               outs3 ++ d.2.1 ++ ["Looks like this subdomain is free again, please try again."])
            else
              deployHostStep env appName sub remoteDir (ApiCall.subdomainSelect :: d.1)
                (outs3 ++ d.2.1 ++ ["Could not release this subdomain."])
        else
          deployHostStep env appName sub remoteDir [ApiCall.subdomainSelect] outs1
      | none =>
        let g := env.generatedName
        deployHostStep env appName g remoteDir [ApiCall.subdomainSelect]
          (outs0 ++
           ["The subdomain: \"" ++ sub ++ "\" is already taken, so let\x27s generate a new random one:",
            "New generated subdomain: \"" ++ g ++ "\" will be used."])

/-! ## Helper lemmas about the deletion loop -/

/-- When every response in the list is successful, the loop issues one
delete call per identifier, in order, and falls off the end of the loop to
the `return true` after it. -/
theorem deleteLoop_all_ok (oracle : String → DeleteOutcome) :
    ∀ args : List String, (∀ a ∈ args, oracle a = DeleteOutcome.ok) →
      deleteLoop oracle args =
        (args.map ApiCall.subdomainDelete,
         args.map (fun _ => "Subdomain deleted successfully"), true) := by
  intro args h
  induction args with
  | nil => rfl
  | cons a as ih =>
    have ha : oracle a = DeleteOutcome.ok := h a (List.mem_cons_self a as)
    have hrest : ∀ x ∈ as, oracle x = DeleteOutcome.ok :=
      fun x hx => h x (List.mem_cons_of_mem a hx)
    simp [deleteLoop, ha, ih hrest]

/-- When every response before `x` is successful and the response for `x` is
unsuccessful (`entity_not_found` or any other API failure), the loop issues
exactly the calls for the prefix and for `x`, and returns `false` from
inside the loop. -/
theorem deleteLoop_first_fail (oracle : String → DeleteOutcome)
    (pre post : List String) (x : String)
    (hpre : ∀ y ∈ pre, oracle y = DeleteOutcome.ok)
    (hx : oracle x = DeleteOutcome.notFound ∨ ∃ m, oracle x = DeleteOutcome.failed m) :
    (deleteLoop oracle (pre ++ x :: post)).1 = (pre ++ [x]).map ApiCall.subdomainDelete ∧
      (deleteLoop oracle (pre ++ x :: post)).2.2 = false := by
  induction pre with
  | nil =>
    rcases hx with h | ⟨m, h⟩ <;> simp [deleteLoop, h]
  | cons a as ih =>
    have ha : oracle a = DeleteOutcome.ok := hpre a (List.mem_cons_self a as)
    have hrest : ∀ y ∈ as, oracle y = DeleteOutcome.ok :=
      fun y hy => hpre y (List.mem_cons_of_mem a hy)
    have h := ih hrest
    simp [deleteLoop, ha, h.1, h.2]

/-! ## Claims -/

/-- Claim C3 counterexample: with two identifiers whose deletions both
succeed, `deleteSubdomain` issues a delete call for the second identifier as
well (and returns `true` only after the loop), refuting the claim that it
returns after processing only the first element regardless of the first
deletion's outcome. The `return true` in the source sits after the
brace-less `for` loop, not inside it. -/
theorem deleteSubdomain_attempts_second_id :
    ApiCall.subdomainDelete "id2" ∈
        (deleteSubdomain (fun _ => DeleteOutcome.ok) ["id1", "id2"]).1 ∧
      (deleteSubdomain (fun _ => DeleteOutcome.ok) ["id1", "id2"]).1 =
        [ApiCall.subdomainDelete "id1", ApiCall.subdomainDelete "id2"] ∧
      (deleteSubdomain (fun _ => DeleteOutcome.ok) ["id1", "id2"]).2.2 = true := by
  decide

/-- Claim C3 (amended): the `return` statements inside `SubdomainDeleter`'s
loop execute only when a deletion response is unsuccessful; when every
deletion succeeds, every identifier in the list is attempted, in order, and
the function returns `true` after the loop. -/
theorem deleteSubdomain_all_ok (oracle : String → DeleteOutcome) (args : List String)
    (hne : args ≠ []) (h : ∀ a ∈ args, oracle a = DeleteOutcome.ok) :
    (deleteSubdomain oracle args).1 = args.map ApiCall.subdomainDelete ∧
      (deleteSubdomain oracle args).2.2 = true := by
  have hlen : ¬ args.length < 1 := by
    cases args with
    | nil => exact absurd rfl hne
    | cons a as => simp
  rw [deleteSubdomain, if_neg hlen, deleteLoop_all_ok oracle args h]
  exact ⟨rfl, rfl⟩

/-- Claim C3 (amended) witness at a concrete two-element input. -/
theorem deleteSubdomain_all_ok_witness :
    (deleteSubdomain (fun _ => DeleteOutcome.ok) ["x", "y"]).1 =
        [ApiCall.subdomainDelete "x", ApiCall.subdomainDelete "y"] ∧
      (deleteSubdomain (fun _ => DeleteOutcome.ok) ["x", "y"]).2.2 = true := by
  have h := deleteSubdomain_all_ok (fun _ => DeleteOutcome.ok) ["x", "y"]
    (by decide) (by intro a _; rfl)
  simpa using h

/-- Claim C4: `SubdomainDeleter` attempts deletions in list order, and at the
first identifier whose response is unsuccessful (`entity_not_found` or any
other API failure) it returns `false` from inside the loop, having issued
delete calls exactly for the preceding identifiers and that one — no later
identifier is attempted. -/
theorem deleteSubdomain_stops_at_first_failure (oracle : String → DeleteOutcome)
    (pre post : List String) (x : String)
    (hpre : ∀ y ∈ pre, oracle y = DeleteOutcome.ok)
    (hx : oracle x = DeleteOutcome.notFound ∨ ∃ m, oracle x = DeleteOutcome.failed m) :
    (deleteSubdomain oracle (pre ++ x :: post)).1 = (pre ++ [x]).map ApiCall.subdomainDelete ∧
      (deleteSubdomain oracle (pre ++ x :: post)).2.2 = false := by
  have hlen : ¬ (pre ++ x :: post).length < 1 := by simp
  rw [deleteSubdomain, if_neg hlen]
  exact deleteLoop_first_fail oracle pre post x hpre hx

/-- Claim C4 witness: with `"a"` succeeding and everything else not found,
the input `["a", "b", "c"]` yields delete calls for `"a"` and `"b"` only,
and the result `false`. -/
theorem deleteSubdomain_stops_at_first_failure_witness :
    (deleteSubdomain (fun sid => if sid = "a" then DeleteOutcome.ok else DeleteOutcome.notFound)
          (["a"] ++ "b" :: ["c"])).1 =
        (["a"] ++ ["b"]).map ApiCall.subdomainDelete ∧
      (deleteSubdomain (fun sid => if sid = "a" then DeleteOutcome.ok else DeleteOutcome.notFound)
          (["a"] ++ "b" :: ["c"])).2.2 = false := by
  have h := deleteSubdomain_stops_at_first_failure
    (fun sid => if sid = "a" then DeleteOutcome.ok else DeleteOutcome.notFound)
    ["a"] ["c"] "b"
    (by intro y hy; simp at hy; subst hy; decide)
    (Or.inl (by decide))
  exact h

/-- Claim C5: when the app-create step succeeds and the directory-creation
step fails (missing response or falsy `uid`), `createApp` stops after
printing the directory error: the call trace is exactly the create and mkdir
calls, so neither a subdomain-create nor an app-update call is issued. -/
theorem createApp_mkdir_failure_short_circuits (env : CreateAppEnv) (name : String)
    (app : AppRec) (h1 : env.createResp = some app)
    (h2 : env.mkdirResp = none ∨ ∃ d, env.mkdirResp = some d ∧ d.uid = "") :
    (createApp env name).1 =
        [ApiCall.appCreate name,
         ApiCall.mkdir ("/" ++ app.ownerUsername ++ "/AppData/" ++ app.uid)
           ("app-" ++ env.uuid)] ∧
      ("Failed to create directory for app \"" ++ name ++ "\"") ∈ (createApp env name).2 ∧
      (∀ s r, ApiCall.subdomainCreate s r ∉ (createApp env name).1) ∧
      (∀ a u t, ApiCall.appUpdate a u t ∉ (createApp env name).1) := by
  rcases h2 with h2 | ⟨d, h2, hd⟩
  · simp [createApp, h1, h2]
  · simp [createApp, h1, h2, hd]

/-- Claim C5 witness: a concrete run whose mkdir response is missing. -/
theorem createApp_mkdir_failure_short_circuits_witness :
    (createApp ⟨some ⟨"u1", "myapp", "admin"⟩, "1234-abcd", none, true, true⟩ "myapp").1 =
        [ApiCall.appCreate "myapp",
         ApiCall.mkdir ("/" ++ "admin" ++ "/AppData/" ++ "u1") ("app-" ++ "1234-abcd")] ∧
      ("Failed to create directory for app \"" ++ "myapp" ++ "\"") ∈
        (createApp ⟨some ⟨"u1", "myapp", "admin"⟩, "1234-abcd", none, true, true⟩ "myapp").2 ∧
      (∀ s r, ApiCall.subdomainCreate s r ∉
        (createApp ⟨some ⟨"u1", "myapp", "admin"⟩, "1234-abcd", none, true, true⟩ "myapp").1) ∧
      (∀ a u t, ApiCall.appUpdate a u t ∉
        (createApp ⟨some ⟨"u1", "myapp", "admin"⟩, "1234-abcd", none, true, true⟩ "myapp").1) := by
  exact createApp_mkdir_failure_short_circuits
    ⟨some ⟨"u1", "myapp", "admin"⟩, "1234-abcd", none, true, true⟩ "myapp"
    ⟨"u1", "myapp", "admin"⟩ rfl (Or.inl rfl)

/-- Claim C8: when the read response has `success:false` or no `result`,
`deleteApp` prints the message `App "<name>" not found.` (which contains
`not found`), returns `false`, and issues no delete call: its trace is the
read call alone. -/
theorem deleteApp_not_found (env : DeleteAppEnv) (name : String)
    (h : env.readSuccess = false ∨ env.readHasResult = false) :
    (deleteApp env name).1 = [ApiCall.appRead name] ∧
      ("App \"" ++ name ++ "\" not found.") ∈ (deleteApp env name).2.1 ∧
      (deleteApp env name).2.2 = some false ∧
      ApiCall.appDelete name ∉ (deleteApp env name).1 := by
  rcases h with h | h <;> simp [deleteApp, h]

/-- Claim C8 witness: a concrete read response with `success:false`. -/
theorem deleteApp_not_found_witness :
    (deleteApp ⟨false, false, true⟩ "nonexistent-app").1 = [ApiCall.appRead "nonexistent-app"] ∧
      ("App \"" ++ "nonexistent-app" ++ "\" not found.") ∈
        (deleteApp ⟨false, false, true⟩ "nonexistent-app").2.1 ∧
      (deleteApp ⟨false, false, true⟩ "nonexistent-app").2.2 = some false ∧
      ApiCall.appDelete "nonexistent-app" ∉ (deleteApp ⟨false, false, true⟩ "nonexistent-app").1 := by
  exact deleteApp_not_found ⟨false, false, true⟩ "nonexistent-app" (Or.inl rfl)

/-- Claim C9 counterexample: a successful run of `createApp` in which the
server-deduped canonical name is `a-b`, the requested name is `a` and the
first uuid segment is the non-empty `b`, so the `index_url` written in the
update step (`https://a-b.puter.site`) is exactly the URL of the subdomain
`a-b` that was created — refuting the claim that the two URLs can never be
equal. -/
theorem createApp_index_url_collision :
    (createApp ⟨some ⟨"u1", "a-b", "admin"⟩, "b-c", some ⟨"d1", "app-b-c"⟩, true, true⟩ "a").1 =
        [ApiCall.appCreate "a",
         ApiCall.mkdir "/admin/AppData/u1" "app-b-c",
         ApiCall.subdomainCreate "a-b" "/admin/AppData/u1/app-b-c",
         ApiCall.appUpdate "a-b" "https://a-b.puter.site" "a"] ∧
      ("https://a-b.puter.site") ∈
        (createApp ⟨some ⟨"u1", "a-b", "admin"⟩, "b-c", some ⟨"d1", "app-b-c"⟩, true, true⟩ "a").2 ∧
      (firstSegment "b-c" ≠ "") ∧
      ("https://a-b.puter.site" =
        "https://" ++ ("a" ++ "-" ++ firstSegment "b-c") ++ ".puter.site") := by
  decide

/-- Claim C9 (amended): in every successful run, the update step writes
`index_url = https://{canonicalAppName}.puter.site`, the created subdomain
is `{requestedName}-{first uuid segment}` and the printed deployment URL is
that subdomain's URL; the stored `index_url` differs from the created
subdomain's URL whenever the canonical name equals the requested name (it
can coincide only when server-side dedupe returns exactly
`{requestedName}-{first uuid segment}`). -/
theorem createApp_urls (env : CreateAppEnv) (name : String) (app : AppRec) (d : MkdirResult)
    (h1 : env.createResp = some app) (h2 : env.mkdirResp = some d) (h3 : d.uid ≠ "")
    (h4 : env.subdomainCreateOk = true) (h5 : env.updateOk = true) :
    (createApp env name).1 =
        [ApiCall.appCreate name,
         ApiCall.mkdir ("/" ++ app.ownerUsername ++ "/AppData/" ++ app.uid)
           ("app-" ++ env.uuid),
         ApiCall.subdomainCreate (name ++ "-" ++ firstSegment env.uuid)
           ("/" ++ app.ownerUsername ++ "/AppData/" ++ app.uid ++ "/" ++ d.name),
         ApiCall.appUpdate app.name ("https://" ++ app.name ++ ".puter.site") name] ∧
      ("https://" ++ (name ++ "-" ++ firstSegment env.uuid) ++ ".puter.site") ∈
        (createApp env name).2 ∧
      (app.name = name →
        ("https://" ++ app.name ++ ".puter.site" : String) ≠
          "https://" ++ (name ++ "-" ++ firstSegment env.uuid) ++ ".puter.site") := by
  refine ⟨?_, ?_, ?_⟩
  · simp [createApp, h1, h2, h3, h4, h5]
  · simp [createApp, h1, h2, h3, h4, h5]
  · intro hn heq
    have hlen := congrArg String.length heq
    simp only [String.length_append, hn] at hlen
    have hdash : ("-" : String).length = 1 := rfl
    omega

/-- Claim C9 (amended) witness: a run without dedupe renaming, where the two
URLs indeed differ. -/
theorem createApp_urls_witness :
    (createApp ⟨some ⟨"u1", "myapp", "admin"⟩, "1234-abcd", some ⟨"d1", "app-dir"⟩, true, true⟩
          "myapp").1 =
        [ApiCall.appCreate "myapp",
         ApiCall.mkdir ("/" ++ "admin" ++ "/AppData/" ++ "u1") ("app-" ++ "1234-abcd"),
         ApiCall.subdomainCreate ("myapp" ++ "-" ++ firstSegment "1234-abcd")
           ("/" ++ "admin" ++ "/AppData/" ++ "u1" ++ "/" ++ "app-dir"),
         ApiCall.appUpdate "myapp" ("https://" ++ "myapp" ++ ".puter.site") "myapp"] ∧
      ("https://" ++ ("myapp" ++ "-" ++ firstSegment "1234-abcd") ++ ".puter.site") ∈
        (createApp ⟨some ⟨"u1", "myapp", "admin"⟩, "1234-abcd", some ⟨"d1", "app-dir"⟩, true, true⟩
          "myapp").2 ∧
      (("myapp" : String) = "myapp" →
        ("https://" ++ "myapp" ++ ".puter.site" : String) ≠
          "https://" ++ ("myapp" ++ "-" ++ firstSegment "1234-abcd") ++ ".puter.site") := by
  have h := createApp_urls
    ⟨some ⟨"u1", "myapp", "admin"⟩, "1234-abcd", some ⟨"d1", "app-dir"⟩, true, true⟩
    "myapp" ⟨"u1", "myapp", "admin"⟩ ⟨"d1", "app-dir"⟩ rfl rfl (by decide) rfl rfl
  exact ⟨h.1, h.2.1, fun _ => h.2.2 rfl⟩

/-- Claim C1: `deploySite ["myapp"]` with the candidate free (the fetched
subdomain list is empty) does NOT bind `myapp`: the `else` of
`if (subdomainObj)` — which runs exactly when the candidate is absent from
the list — generates a random name and the single `hostDirectory` call uses
that name, not `myapp`, so no subdomain-create call for `myapp` is issued. -/
theorem deploySite_free_candidate_uses_generated_name :
    (deploySite ⟨"/home/me", "me", (fun a b => a ++ "/" ++ b), some [],
        (fun _ => DeleteOutcome.ok), "happy-cat-17", some "happy-cat-17"⟩ ["myapp"]).1 =
      [ApiCall.subdomainSelect, ApiCall.subdomainCreate "happy-cat-17" "/home/me"] ∧
    ApiCall.subdomainCreate "myapp" "/home/me" ∉
      (deploySite ⟨"/home/me", "me", (fun a b => a ++ "/" ++ b), some [],
        (fun _ => DeleteOutcome.ok), "happy-cat-17", some "happy-cat-17"⟩ ["myapp"]).1 ∧
    ("https://myapp.puter.site") ∉
      (deploySite ⟨"/home/me", "me", (fun a b => a ++ "/" ++ b), some [],
        (fun _ => DeleteOutcome.ok), "happy-cat-17", some "happy-cat-17"⟩ ["myapp"]).2 := by
  decide

/-- Claim C2: when the fetched list binds the candidate `myapp` to a
different owner (`alice`, current user `bob`), `deploySite` prints the
conflict but generates no random name: it falls through and the final
`hostDirectory` call still uses the foreign-owned candidate `myapp` (the
random-name branch is the `else` of `if (subdomainObj)` and is unreachable
here). -/
theorem deploySite_foreign_owner_keeps_candidate :
    (deploySite ⟨"/bob/www", "bob", (fun a b => a ++ "/" ++ b),
        some [⟨"su1", "myapp", "alice", some "/alice/site"⟩],
        (fun _ => DeleteOutcome.ok), "random-zebra-42", some "myapp"⟩ ["myapp"]).1 =
      [ApiCall.subdomainSelect, ApiCall.subdomainCreate "myapp" "/bob/www"] ∧
    ("The subdomain \"myapp\" is already in use and owned by: \"alice\"") ∈
      (deploySite ⟨"/bob/www", "bob", (fun a b => a ++ "/" ++ b),
        some [⟨"su1", "myapp", "alice", some "/alice/site"⟩],
        (fun _ => DeleteOutcome.ok), "random-zebra-42", some "myapp"⟩ ["myapp"]).2 ∧
    ApiCall.subdomainCreate "random-zebra-42" "/bob/www" ∉
      (deploySite ⟨"/bob/www", "bob", (fun a b => a ++ "/" ++ b),
        some [⟨"su1", "myapp", "alice", some "/alice/site"⟩],
        (fun _ => DeleteOutcome.ok), "random-zebra-42", some "myapp"⟩ ["myapp"]).1 := by
  decide

/-- Claim C6: when the candidate subdomain is bound, its owner is the
current user and its `root_dir` path equals the resolved target directory,
`deploySite` reports already-deployed together with the existing URL and
returns having issued only the select call — no subdomain-create call. -/
theorem deploySite_already_deployed_noop (env : DeployEnv) (appName : String)
    (rest : List String) (sds : List SubdomainRec) (sdObj : SubdomainRec)
    (h1 : env.selectResp = some sds)
    (h2 : sds.find? (fun sd => sd.subdomain == candidateSubdomain (appName :: rest) appName) =
      some sdObj)
    (h3 : sdObj.ownerUsername = env.currentUserName)
    (h4 : sdObj.rootDirPath = some (remoteDirOf env (appName :: rest))) :
    (deploySite env (appName :: rest)).1 = [ApiCall.subdomainSelect] ∧
      "Which is already the selected directory, and deployed at:" ∈
        (deploySite env (appName :: rest)).2 ∧
      ("https://" ++ candidateSubdomain (appName :: rest) appName ++ ".puter.site") ∈
        (deploySite env (appName :: rest)).2 ∧
      (∀ s r, ApiCall.subdomainCreate s r ∉ (deploySite env (appName :: rest)).1) := by
  simp [deploySite, h1, h2, h3, h4]

/-- Claim C6 witness: a single-record list binding `myapp` to the current
user at the current directory. -/
theorem deploySite_already_deployed_noop_witness :
    (deploySite ⟨"/me/dir", "me", (fun a b => a ++ "/" ++ b),
        some [⟨"u9", "myapp", "me", some "/me/dir"⟩],
        (fun _ => DeleteOutcome.ok), "gen-1", some "myapp"⟩ ["myapp"]).1 =
      [ApiCall.subdomainSelect] ∧
    "Which is already the selected directory, and deployed at:" ∈
      (deploySite ⟨"/me/dir", "me", (fun a b => a ++ "/" ++ b),
        some [⟨"u9", "myapp", "me", some "/me/dir"⟩],
        (fun _ => DeleteOutcome.ok), "gen-1", some "myapp"⟩ ["myapp"]).2 ∧
    ("https://" ++ candidateSubdomain ["myapp"] "myapp" ++ ".puter.site") ∈
      (deploySite ⟨"/me/dir", "me", (fun a b => a ++ "/" ++ b),
        some [⟨"u9", "myapp", "me", some "/me/dir"⟩],
        (fun _ => DeleteOutcome.ok), "gen-1", some "myapp"⟩ ["myapp"]).2 ∧
    (∀ s r, ApiCall.subdomainCreate s r ∉
      (deploySite ⟨"/me/dir", "me", (fun a b => a ++ "/" ++ b),
        some [⟨"u9", "myapp", "me", some "/me/dir"⟩],
        (fun _ => DeleteOutcome.ok), "gen-1", some "myapp"⟩ ["myapp"]).1) := by
  exact deploySite_already_deployed_noop
    ⟨"/me/dir", "me", (fun a b => a ++ "/" ++ b),
      some [⟨"u9", "myapp", "me", some "/me/dir"⟩],
      (fun _ => DeleteOutcome.ok), "gen-1", some "myapp"⟩
    "myapp" [] [⟨"u9", "myapp", "me", some "/me/dir"⟩] ⟨"u9", "myapp", "me", some "/me/dir"⟩
    rfl (by decide) rfl rfl

/-- Claim C7: `deleteSite` issues the dedicated delete-site call with the
UUID, but then hands the UUID string (not an array) to `deleteSubdomain`,
which iterates it character by character: the subdomain delete calls carry
single-character ids and the whole UUID is never used as one identifier. -/
theorem deleteSite_deletes_subdomain_per_character :
    (deleteSite ⟨(fun _ => some true), (fun _ => DeleteOutcome.ok)⟩ ["ab"]).1 =
      [ApiCall.siteDelete "ab", ApiCall.subdomainDelete "a", ApiCall.subdomainDelete "b"] ∧
    ApiCall.subdomainDelete "ab" ∉
      (deleteSite ⟨(fun _ => some true), (fun _ => DeleteOutcome.ok)⟩ ["ab"]).1 := by
  decide

/-- Claim C10: when the candidate is bound to the current user at a
different directory and the unbind attempt reports failure, `deploySite`
prints the inability-to-release message and still falls through to the
final `hostDirectory` call with the still-bound candidate name. -/
theorem deploySite_unbind_failure_falls_through (env : DeployEnv) (appName : String)
    (rest : List String) (sds : List SubdomainRec) (sdObj : SubdomainRec)
    (h1 : env.selectResp = some sds)
    (h2 : sds.find? (fun sd => sd.subdomain == candidateSubdomain (appName :: rest) appName) =
      some sdObj)
    (h3 : sdObj.ownerUsername = env.currentUserName)
    (h4 : sdObj.rootDirPath ≠ some (remoteDirOf env (appName :: rest)))
    (h5 : (deleteSubdomain env.deleteOracle (strChars sdObj.uid)).2.2 = false) :
    "Could not release this subdomain." ∈ (deploySite env (appName :: rest)).2 ∧
      ApiCall.subdomainCreate (candidateSubdomain (appName :: rest) appName)
          (remoteDirOf env (appName :: rest)) ∈ (deploySite env (appName :: rest)).1 := by
  cases hh : env.hostResp <;>
    simp [deploySite, h1, h2, h3, h4, h5, deployHostStep, hostDirectory, hh]

/-- Claim C10 witness: `myapp` bound to the current user at `/me/old`,
target `/me/new`, and every per-character unbind call answered with
entity-not-found (so the unbind reports failure). -/
theorem deploySite_unbind_failure_falls_through_witness :
    "Could not release this subdomain." ∈
      (deploySite ⟨"/me/new", "me", (fun a b => a ++ "/" ++ b),
        some [⟨"u7", "myapp", "me", some "/me/old"⟩],
        (fun _ => DeleteOutcome.notFound), "gen-2", some "myapp"⟩ ["myapp"]).2 ∧
    ApiCall.subdomainCreate (candidateSubdomain ["myapp"] "myapp")
        (remoteDirOf ⟨"/me/new", "me", (fun a b => a ++ "/" ++ b),
          some [⟨"u7", "myapp", "me", some "/me/old"⟩],
          (fun _ => DeleteOutcome.notFound), "gen-2", some "myapp"⟩ ["myapp"]) ∈
      (deploySite ⟨"/me/new", "me", (fun a b => a ++ "/" ++ b),
        some [⟨"u7", "myapp", "me", some "/me/old"⟩],
        (fun _ => DeleteOutcome.notFound), "gen-2", some "myapp"⟩ ["myapp"]).1 := by
  exact deploySite_unbind_failure_falls_through
    ⟨"/me/new", "me", (fun a b => a ++ "/" ++ b),
      some [⟨"u7", "myapp", "me", some "/me/old"⟩],
      (fun _ => DeleteOutcome.notFound), "gen-2", some "myapp"⟩
    "myapp" [] [⟨"u7", "myapp", "me", some "/me/old"⟩] ⟨"u7", "myapp", "me", some "/me/old"⟩
    rfl (by decide) rfl (by decide) (by decide)

end PuterCli
